import Mathlib

/-!
Verification of the execution-coordinator core of the jupyter-server-client
library (`jupyter_server_api/managers/execs.py`), together with spec-modelled
collaborators (URL composer, error classifier, result model) whose source
modules are not part of the verified tree.

Network I/O and wall-clock time are embedded as explicit environments:
`ExecEnv.times` gives the value returned by the k-th call of `time.time`
(index 0 is the `start_time` read at the top of `_poll_for_result`; index
`i + 1` is the read performed by the deadline check of loop iteration `i`),
and `ExecEnv.polls` gives the outcome of the i-th `GET` on the result
locator — either a decoded JSON body or the classified error raised by the
transport. The `while True` loop is embedded with explicit fuel; every
theorem that needs termination supplies enough fuel for the trace at hand.
-/

namespace JupyterExecs

/-- Decidable equality for `Except`, needed to evaluate concrete call
outcomes. -/
instance {ε α : Type} [DecidableEq ε] [DecidableEq α] : DecidableEq (Except ε α) :=
  fun x y =>
    match x, y with
    | .error a, .error b =>
      if h : a = b then .isTrue (by rw [h]) else .isFalse (by simp [h])
    | .ok a, .ok b =>
      if h : a = b then .isTrue (by rw [h]) else .isFalse (by simp [h])
    | .error _, .ok _ => .isFalse (by simp)
    | .ok _, .error _ => .isFalse (by simp)

/-- Modelled from the spec: one output record of an execution
(`models.py` is not in the verified tree). The spec treats outputs as opaque
structured records (`output_type` plus type-specific fields); only the
fields the claims mention are modelled. -/
structure Output where
  output_type : String
  text : Option String
deriving DecidableEq

/-- Modelled from the spec: the terminal status enumeration
`{ok, error, abort}` of an `ExecutionResult`. -/
inductive ExecStatus where
  | ok
  | error
  | abort
deriving DecidableEq

/-- Modelled from the spec: `ExecutionResult` —
`{ status: enum{ok, error, abort}, execution_count: optional integer,
outputs: ordered sequence of Output }` (`models.py` is not in the verified
tree). -/
structure ExecutionResult where
  status : ExecStatus
  execution_count : Option Int
  outputs : List Output
deriving DecidableEq

/-- Modelled from the spec: `ExecutionRequest` is `{ code: string }`. -/
structure ExecutionRequest where
  code : String
deriving DecidableEq

/-- A decoded JSON body as returned by `http_client.get`, restricted to what
the code inspects: presence/value of the `status` key, the keys consumed by
the `ExecutionResult` decoder, and a count of any remaining keys (needed for
Python dict truthiness). -/
structure Body where
  status : Option String
  execution_count : Option Int
  outputs : Option (List Output)
  otherKeys : Nat
deriving DecidableEq

/-- Python truthiness of the decoded dict: a dict is truthy iff nonempty. -/
def Body.truthy (b : Body) : Bool :=
  b.status.isSome || b.execution_count.isSome || b.outputs.isSome || b.otherKeys != 0

/-- Parse a `status` string into the terminal-status enumeration; any other
value fails validation. -/
def parseStatus : String → Option ExecStatus
  | "ok" => some .ok
  | "error" => some .error
  | "abort" => some .abort
  | _ => none

/-- Modelled from the spec: decoding `ExecutionResult(**response)` — the
pydantic-style construction of an `ExecutionResult` from a decoded body
(`models.py` is not in the verified tree). `status` is mandatory and must be
a terminal value; `execution_count` is optional; missing `outputs` defaults
to the empty sequence. Returns `none` on validation failure. -/
def ExecutionResult.ofBody (b : Body) : Option ExecutionResult :=
  match b.status with
  | none => none
  | some s => (parseStatus s).map fun st =>
      { status := st, execution_count := b.execution_count, outputs := b.outputs.getD [] }

/-- The classified errors raised by the transport for non-success responses
(the spec's `AuthError`, `NotFoundError`, `TimeoutError` for HTTP
408/504-style failures, `ValidationError`, `ServerError`); each carries the
numeric HTTP status. -/
inductive ApiError where
  | auth (status : Nat)
  | notFound (status : Nat)
  | timedOutHttp (status : Nat)
  | invalidReq (status : Nat)
  | server (status : Nat)
deriving DecidableEq

/-- The numeric HTTP status carried on a classified error. -/
def ApiError.statusCode : ApiError → Nat
  | .auth s => s
  | .notFound s => s
  | .timedOutHttp s => s
  | .invalidReq s => s
  | .server s => s

/-- Modelled from the spec: the error classifier `create_error_from_response`
(`exceptions.py` is not in the verified tree). Fixed mapping: 401/403 →
AuthError; 404 → NotFoundError; 408/504 or a body-embedded timeout marker →
TimeoutError; 400/422 → ValidationError; other non-success → ServerError,
status preserved in every case. -/
def classify (status : Nat) (timeoutMarker : Bool) : ApiError :=
  if status = 401 || status = 403 then .auth status
  else if status = 404 then .notFound status
  else if status = 408 || status = 504 || timeoutMarker then .timedOutHttp status
  else if status = 400 || status = 422 then .invalidReq status
  else .server status

/-- `response.ok` of the HTTP library: true iff the status code is below 400. -/
def statusOk (s : Nat) : Bool := s < 400

/-- The raw response of the submit `POST`, restricted to what the code
inspects: the status code, whether the body embeds a timeout marker (consumed
by the classifier), and the `Location` header (`none` when the header is
absent). -/
structure SubmitResponse where
  status : Nat
  timeoutMarker : Bool
  location : Option String

/-- The environment of one `execute` call: the submit response, the stream of
`time.time` readings, and the outcome of each `GET` on the result locator. -/
structure ExecEnv where
  submit : SubmitResponse
  times : Nat → ℚ
  polls : Nat → Except ApiError Body

/-- The errors an `execute` call can raise: a classified transport error, the
missing-locator failure (`ValueError` in the code, `MissingLocatorError` in
the spec taxonomy), the wall-clock timeout (`JupyterTimeoutError`, carrying
the configured duration), or a validation failure while decoding a body into
an `ExecutionResult`. -/
inductive ExecError where
  | api (e : ApiError)
  | missingLocator
  | timedOut (d : ℚ)
  | decodeFailed
deriving DecidableEq

/-- `_extract_result_url`: read the `Location` header and fail on a falsy
value (absent header or empty string). -/
def extractResultUrl (loc : Option String) : Except ExecError String :=
  match loc with
  | none => .error .missingLocator
  | some l => if l.isEmpty then .error .missingLocator else .ok l

/-- The deadline check at the top of loop iteration `i` of
`_poll_for_result`: false when no timeout is set, otherwise true iff the
elapsed time `times (i+1) - times 0` has reached the timeout. -/
def deadlineHit (env : ExecEnv) (timeout : Option ℚ) (i : Nat) : Bool :=
  match timeout with
  | none => false
  | some t => decide (t ≤ env.times (i + 1) - env.times 0)

/-- The `while True` loop of `_poll_for_result`, starting at iteration `i`
with the given fuel. Returns `none` when fuel runs out, otherwise the
outcome together with the total number of poll `GET` requests issued. Each
iteration: deadline check first (raising `JupyterTimeoutError` with the
configured duration before any `GET`), then the `GET` (whose classified
error propagates), then `return ExecutionResult(**response)` when the body
is truthy and has a `status` key, else sleep and repeat. -/
def pollLoop (env : ExecEnv) (timeout : Option ℚ) :
    Nat → Nat → Option (Except ExecError ExecutionResult × Nat)
  | 0, _ => none
  | fuel + 1, i =>
    if deadlineHit env timeout i then
      some (.error (.timedOut (timeout.getD 0)), i)
    else
      match env.polls i with
      | .error e => some (.error (.api e), i + 1)
      | .ok b =>
        if b.truthy && b.status.isSome then
          match ExecutionResult.ofBody b with
          | some r => some (.ok r, i + 1)
          | none => some (.error .decodeFailed, i + 1)
        else
          pollLoop env timeout fuel (i + 1)

/-- `_poll_for_result`: read `start_time`, then run the polling loop from
iteration 0. -/
def pollForResult (env : ExecEnv) (timeout : Option ℚ) (fuel : Nat) :
    Option (Except ExecError ExecutionResult × Nat) :=
  pollLoop env timeout fuel 0

/-- The client configuration held by the transport (`http_client`): base
endpoint, optional bearer token, optional global request timeout. -/
structure HttpClient where
  base_url : String
  token : Option String
  timeout : Option ℚ
deriving DecidableEq

/-- `ExecsManager`: holds the shared `http_client` reference set at
construction. -/
structure ExecsManager where
  http_client : HttpClient
deriving DecidableEq

/-- The path of the submit `POST` built by `_submit_execution`. -/
def submitUrl (kernel_id : String) : String :=
  "/api/kernels/" ++ kernel_id ++ "/execute"

/-- The path of the direct-fetch `GET` built by `get_execution_result`. -/
def execUrl (kernel_id execution_id : String) : String :=
  "/api/kernels/" ++ kernel_id ++ "/executions/" ++ execution_id

/-- `_submit_execution`: issue the `POST`; on a non-success status raise the
classified error, otherwise return the raw response. The manager is threaded
explicitly; no statement of the source assigns to it. -/
def submitSt (m : ExecsManager) (env : ExecEnv) :
    Except ApiError SubmitResponse × ExecsManager :=
  if statusOk env.submit.status then (.ok env.submit, m)
  else (.error (classify env.submit.status env.submit.timeoutMarker), m)

/-- `execute`: submit, extract the result locator from the `Location` header,
then poll. The second component is the manager state after the call; the
`Nat` in the first component counts poll `GET` requests issued (0 when the
call fails before the polling loop). -/
def executeSt (m : ExecsManager) (env : ExecEnv) (timeout : Option ℚ) (fuel : Nat) :
    Option (Except ExecError ExecutionResult × Nat) × ExecsManager :=
  match submitSt m env with
  | (.error e, m1) => (some (.error (.api e), 0), m1)
  | (.ok resp, m1) =>
    match extractResultUrl resp.location with
    | .error e => (some (.error e, 0), m1)
    | .ok _ => (pollForResult env timeout fuel, m1)

/-- The environment of one `get_execution_result` call: the outcome of its
single `GET`. -/
structure GetEnv where
  response : Except ApiError Body

/-- `get_execution_result`: build the executions path, issue one `GET`, and
decode the body as a terminal `ExecutionResult` unconditionally. The first
component is the outcome, the number of `GET` requests issued, and the path
requested; the second is the manager state after the call. -/
def getExecutionResultSt (m : ExecsManager) (kernel_id execution_id : String)
    (env : GetEnv) :
    (Except ExecError ExecutionResult × Nat × String) × ExecsManager :=
  let url := execUrl kernel_id execution_id
  match env.response with
  | .error e => ((.error (.api e), 1, url), m)
  | .ok b =>
    match ExecutionResult.ofBody b with
    | some r => ((.ok r, 1, url), m)
    | none => ((.error .decodeFailed, 1, url), m)

/-- Modelled from the spec: the URL composer `_build_url`
(`http_client.py` is not in the verified tree), on character lists: collapse
any run of trailing slashes of the base to exactly one, strip leading slashes
of the path, concatenate. -/
def buildUrlL (base path : List Char) : List Char :=
  ((base.reverse.dropWhile (· = '/')).reverse) ++ '/' :: (path.dropWhile (· = '/'))

/-- Modelled from the spec: the URL composer `_build_url` on strings. -/
def buildUrl (base path : String) : String :=
  ⟨buildUrlL base.toList path.toList⟩

/-- A string of `n` slashes. -/
def slashes (n : Nat) : String :=
  ⟨List.replicate n '/'⟩

/-! ## Concrete environments used to instantiate the theorems -/

/-- A sample manager configuration. -/
def sampleClient : ExecsManager :=
  ⟨⟨"http://localhost:8888", none, none⟩⟩

/-- A terminal poll body: `{"status": "ok", "execution_count": 1,
"outputs": [{"output_type": "stream", "text": "hi\n"}]}`. -/
def okBody : Body :=
  { status := some "ok", execution_count := some 1
    outputs := some [⟨"stream", some "hi\n"⟩], otherKeys := 0 }

/-- The `ExecutionResult` decoded from `okBody`. -/
def okResult : ExecutionResult :=
  { status := .ok, execution_count := some 1
    outputs := [⟨"stream", some "hi\n"⟩] }

/-- An intermediate poll body: truthy but with no `status` key. -/
def interBody : Body :=
  { status := none, execution_count := none, outputs := none, otherKeys := 1 }

/-- A poll body carrying an explicit pending marker: a `status` key whose
value is not one of the terminal values. -/
def pendBody : Body :=
  { status := some "pending", execution_count := none, outputs := none
    otherKeys := 0 }

/-- An environment whose submit succeeds with a locator and whose poller
returns three intermediate bodies, then `okBody`. -/
def fourPollEnv : ExecEnv :=
  { submit := { status := 201, timeoutMarker := false
                location := some "/api/kernels/k/executions/e" }
    times := fun _ => 0
    polls := fun i => if i < 3 then .ok interBody else .ok okBody }

/-- An environment whose first poll body carries an explicit pending marker
and whose second poll body is terminal. -/
def pendEnv : ExecEnv :=
  { submit := { status := 201, timeoutMarker := false, location := some "/x" }
    times := fun _ => 0
    polls := fun i => if i = 0 then .ok pendBody else .ok okBody }

/-- An environment whose server never returns a terminal response, with a
clock that advances one second per reading. -/
def neverDoneEnv : ExecEnv :=
  { submit := { status := 200, timeoutMarker := false, location := some "/x" }
    times := fun i => (i : ℚ)
    polls := fun _ => .ok interBody }

/-- An environment whose submit fails with HTTP 404. -/
def notFoundEnv : ExecEnv :=
  { submit := { status := 404, timeoutMarker := false, location := none }
    times := fun _ => 0
    polls := fun _ => .ok interBody }

/-! ## Helper lemmas -/

lemma executeSt_located (m : ExecsManager) (env : ExecEnv) (t : Option ℚ)
    (fuel : Nat) (l : String)
    (hok : statusOk env.submit.status = true)
    (hloc : env.submit.location = some l) (hl : l.isEmpty = false) :
    (executeSt m env t fuel).1 = pollLoop env t fuel 0 := by
  simp [executeSt, submitSt, extractResultUrl, pollForResult, hok, hloc, hl]

lemma pollLoop_timeout_at (env : ExecEnv) (q : ℚ) (fuel i : Nat)
    (hd : deadlineHit env (some q) i = true) :
    pollLoop env (some q) (fuel + 1) i = some (.error (.timedOut q), i) := by
  simp [pollLoop, hd]

lemma pollLoop_continue (env : ExecEnv) (t : Option ℚ) (fuel i : Nat) (b : Body)
    (hd : deadlineHit env t i = false)
    (hp : env.polls i = .ok b)
    (hb : (b.truthy && b.status.isSome) = false) :
    pollLoop env t (fuel + 1) i = pollLoop env t fuel (i + 1) := by
  simp [pollLoop, hd, hp, hb]

lemma pollLoop_returns (env : ExecEnv) (t : Option ℚ) (fuel i : Nat) (b : Body)
    (r : ExecutionResult)
    (hd : deadlineHit env t i = false)
    (hp : env.polls i = .ok b)
    (hb : (b.truthy && b.status.isSome) = true)
    (hr : ExecutionResult.ofBody b = some r) :
    pollLoop env t (fuel + 1) i = some (.ok r, i + 1) := by
  simp [pollLoop, hd, hp, hb, hr]

lemma deadlineHit_none (env : ExecEnv) (i : Nat) :
    deadlineHit env none i = false := rfl

lemma executeSt_snd (m : ExecsManager) (env : ExecEnv) (t : Option ℚ)
    (fuel : Nat) : (executeSt m env t fuel).2 = m := by
  unfold executeSt submitSt
  by_cases h : statusOk env.submit.status = true
  · cases hE : extractResultUrl env.submit.location <;> simp [h, hE]
  · simp [h]

lemma getExecutionResultSt_snd (m : ExecsManager) (kid eid : String)
    (env : GetEnv) : (getExecutionResultSt m kid eid env).2 = m := by
  unfold getExecutionResultSt
  split <;> simp_all
  split <;> simp_all

/-! ## Claims -/

/-- C1: when the submit `POST` succeeds but the response carries no
`Location` header, `execute` fails with the missing-locator error
(`MissingLocatorError` of the spec taxonomy, a `ValueError` in the code)
and issues zero poll `GET` requests: the failure happens before the polling
loop is entered. -/
theorem execute_no_location_fails_before_polls
    (m : ExecsManager) (env : ExecEnv) (t : Option ℚ) (fuel : Nat)
    (hok : statusOk env.submit.status = true)
    (hloc : env.submit.location = none) :
    (executeSt m env t fuel).1 = some (.error .missingLocator, 0) := by
  simp [executeSt, submitSt, extractResultUrl, hok, hloc]

theorem execute_no_location_fails_before_polls_witness :
    (executeSt ⟨⟨"http://localhost:8888", none, none⟩⟩
        ⟨⟨201, false, none⟩, fun _ => 0, fun _ => .error (.server 500)⟩
        none 5).1 = some (.error .missingLocator, 0) :=
  execute_no_location_fails_before_polls _ _ _ _ (by decide) rfl

/-- C10: an empty-string `Location` header is treated identically to an
absent one — the check uses falsiness of the header value — so `execute`
raises the missing-locator error and issues no poll requests. -/
theorem execute_empty_location_fails_before_polls
    (m : ExecsManager) (env : ExecEnv) (t : Option ℚ) (fuel : Nat)
    (hok : statusOk env.submit.status = true)
    (hloc : env.submit.location = some "") :
    (executeSt m env t fuel).1 = some (.error .missingLocator, 0) := by
  have hE : String.isEmpty "" = true := rfl
  simp [executeSt, submitSt, extractResultUrl, hok, hloc, hE]

theorem execute_empty_location_fails_before_polls_witness :
    (executeSt ⟨⟨"http://localhost:8888", none, none⟩⟩
        ⟨⟨200, false, some ""⟩, fun _ => 0, fun _ => .error (.server 500)⟩
        none 5).1 = some (.error .missingLocator, 0) :=
  execute_empty_location_fails_before_polls _ _ _ _ (by decide) rfl

/-- C5: `get_execution_result` issues exactly one HTTP request — a `GET` of
`/api/kernels/{kernel_id}/executions/{execution_id}` — and returns the
decoded body as a terminal `ExecutionResult` with no polling; moreover the
request count is one for every possible response, independent of any prior
poll state. -/
theorem get_execution_result_single_request
    (m : ExecsManager) (kid eid : String) (env : GetEnv) (b : Body)
    (r : ExecutionResult)
    (hresp : env.response = .ok b)
    (hdec : ExecutionResult.ofBody b = some r) :
    (getExecutionResultSt m kid eid env).1 = (.ok r, 1, execUrl kid eid) ∧
    ∀ env2 : GetEnv, (getExecutionResultSt m kid eid env2).1.2.1 = 1 := by
  constructor
  · simp [getExecutionResultSt, hresp, hdec]
  · intro env2
    unfold getExecutionResultSt
    cases h2 : env2.response with
    | error e => simp [h2]
    | ok b2 => cases hd2 : ExecutionResult.ofBody b2 <;> simp [h2, hd2]

theorem get_execution_result_single_request_witness :
    (getExecutionResultSt sampleClient "k" "e" ⟨.ok okBody⟩).1 =
      (.ok okResult, 1, execUrl "k" "e") ∧
    ∀ env2 : GetEnv, (getExecutionResultSt sampleClient "k" "e" env2).1.2.1 = 1 :=
  get_execution_result_single_request sampleClient "k" "e" ⟨.ok okBody⟩
    okBody okResult rfl (by decide)

/-- C8: neither `execute` nor `get_execution_result` mutates the manager or
its client configuration — the manager state after either call is the one
before it — and no state created for one call is visible to another: a call
made after a previous `execute` behaves exactly as a call made on the
original manager. -/
theorem calls_preserve_client_config
    (m : ExecsManager) (envA envB : ExecEnv) (tA tB : Option ℚ)
    (fA fB : Nat) (kid eid : String) (genv : GetEnv) :
    (executeSt m envA tA fA).2 = m ∧
    (getExecutionResultSt m kid eid genv).2 = m ∧
    executeSt (executeSt m envA tA fA).2 envB tB fB = executeSt m envB tB fB ∧
    getExecutionResultSt (executeSt m envA tA fA).2 kid eid genv =
      getExecutionResultSt m kid eid genv := by
  refine ⟨executeSt_snd m envA tA fA, getExecutionResultSt_snd m kid eid genv,
    ?_, ?_⟩ <;> rw [executeSt_snd m envA tA fA]

/-- C6: a failed submit raises the classifier's fixed mapping of the status
code: a 404 on the submit `POST` raises `NotFoundError` (not `ServerError`)
with zero polls issued; 401/403 map to `AuthError`, 400/422 to
`ValidationError`, 408/504 or a body-embedded timeout marker to the HTTP
`TimeoutError`, other non-success statuses to `ServerError`; and every
non-success status maps to exactly one error kind carrying the numeric
status. -/
theorem submit_error_classification
    (m : ExecsManager) (env : ExecEnv) (t : Option ℚ) (fuel : Nat)
    (h404 : env.submit.status = 404) :
    (executeSt m env t fuel).1 = some (.error (.api (.notFound 404)), 0) ∧
    (∀ mk, classify 401 mk = .auth 401 ∧ classify 403 mk = .auth 403 ∧
      classify 404 mk = .notFound 404) ∧
    (classify 400 false = .invalidReq 400 ∧ classify 422 false = .invalidReq 422 ∧
      classify 408 false = .timedOutHttp 408 ∧ classify 504 false = .timedOutHttp 504 ∧
      classify 500 false = .server 500 ∧
      (∀ s, statusOk s = false → s ≠ 401 → s ≠ 403 → s ≠ 404 →
        classify s true = .timedOutHttp s)) ∧
    (∀ s mk, statusOk s = false → (classify s mk).statusCode = s) := by
  refine ⟨?_, ?_, ⟨by decide, by decide, by decide, by decide, by decide, ?_⟩, ?_⟩
  · have hnot : statusOk env.submit.status = false := by rw [h404]; decide
    have hcl : classify env.submit.status env.submit.timeoutMarker =
        .notFound 404 := by
      rw [h404]; cases env.submit.timeoutMarker <;> decide
    simp [executeSt, submitSt, hnot, hcl]
  · intro mk; cases mk <;> exact ⟨by decide, by decide, by decide⟩
  · intro s _ h1 h2 h3
    simp [classify, h1, h2, h3]
  · intro s mk _
    unfold classify
    split_ifs <;> simp [ApiError.statusCode]

theorem submit_error_classification_witness :
    (executeSt sampleClient notFoundEnv none 5).1 =
      some (.error (.api (.notFound 404)), 0) :=
  (submit_error_classification sampleClient notFoundEnv none 5 rfl).1

/-- C2: when the submit succeeds with a locator and the poller sees exactly
three bodies without a `status` field followed by the terminal body
`{"status": "ok", "execution_count": 1, "outputs": [stream "hi\n"]}`,
`execute` returns the `ExecutionResult` with status `ok` and
execution count 1 after exactly four poll `GET` requests, for any
sufficient fuel — it does not return earlier. -/
theorem execute_returns_after_four_polls
    (m : ExecsManager) (env : ExecEnv) (l : String) (f : Nat)
    (b0 b1 b2 : Body)
    (hok : statusOk env.submit.status = true)
    (hloc : env.submit.location = some l)
    (hl : l.isEmpty = false)
    (h0 : env.polls 0 = .ok b0) (hs0 : b0.status = none)
    (h1 : env.polls 1 = .ok b1) (hs1 : b1.status = none)
    (h2 : env.polls 2 = .ok b2) (hs2 : b2.status = none)
    (h3 : env.polls 3 = .ok okBody) :
    (executeSt m env none (f + 4)).1 = some (.ok okResult, 4) := by
  rw [executeSt_located m env none (f + 4) l hok hloc hl]
  have e0 := pollLoop_continue env none (f + 3) 0 b0 (deadlineHit_none env 0)
    h0 (by simp [hs0])
  have e1 := pollLoop_continue env none (f + 2) 1 b1 (deadlineHit_none env 1)
    h1 (by simp [hs1])
  have e2 := pollLoop_continue env none (f + 1) 2 b2 (deadlineHit_none env 2)
    h2 (by simp [hs2])
  have e3 := pollLoop_returns env none f 3 okBody okResult
    (deadlineHit_none env 3) h3 (by decide) (by decide)
  exact e0.trans (e1.trans (e2.trans e3))

theorem execute_returns_after_four_polls_witness :
    (executeSt sampleClient fourPollEnv none 10).1 = some (.ok okResult, 4) :=
  execute_returns_after_four_polls sampleClient fourPollEnv
    "/api/kernels/k/executions/e" 6 interBody interBody interBody
    (by decide) rfl (by decide) rfl rfl rfl rfl rfl rfl rfl

/-- C4 counterexample: with a first poll body carrying the explicit pending
marker `{"status": "pending"}` and a terminal `ok` body available at the next
poll, `execute` does not sleep and repeat — it stops at the pending body
after exactly one poll `GET`, with a decode failure, never reaching the
terminal body. -/
theorem pending_marker_stops_loop_cex :
    (executeSt sampleClient pendEnv none 10).1 =
      some (.error .decodeFailed, 1) := by
  decide

/-- C4 as amended: a poll body is treated as "still running" (sleep and
repeat) exactly when it is falsy or lacks a `status` field; any truthy body
containing a `status` field — whatever its value, terminal or not —
terminates the polling loop at that `GET`. -/
theorem poll_body_with_status_always_terminal
    (m : ExecsManager) (env : ExecEnv) (l : String) (f : Nat) (b : Body)
    (hok : statusOk env.submit.status = true)
    (hloc : env.submit.location = some l)
    (hl : l.isEmpty = false)
    (hp : env.polls 0 = .ok b) :
    ((b.truthy = false ∨ b.status = none) →
      (executeSt m env none (f + 1)).1 = pollLoop env none f 1) ∧
    (b.truthy = true → b.status.isSome = true →
      ∃ out, (executeSt m env none (f + 1)).1 = some (out, 1)) := by
  constructor
  · intro h
    rw [executeSt_located m env none (f + 1) l hok hloc hl]
    apply pollLoop_continue env none f 0 b (deadlineHit_none env 0) hp
    rcases h with h | h
    · simp [h]
    · simp [h]
  · intro ht hs
    rw [executeSt_located m env none (f + 1) l hok hloc hl]
    cases hr : ExecutionResult.ofBody b with
    | none =>
      refine ⟨.error .decodeFailed, ?_⟩
      simp [pollLoop, deadlineHit_none, hp, ht, hs, hr]
    | some r =>
      exact ⟨.ok r, pollLoop_returns env none f 0 b r (deadlineHit_none env 0)
        hp (by simp [ht, hs]) hr⟩

theorem poll_body_with_status_always_terminal_witness :
    ∃ out, (executeSt sampleClient pendEnv none 6).1 = some (out, 1) :=
  (poll_body_with_status_always_terminal sampleClient pendEnv "/x" 5 pendBody
    (by decide) rfl (by decide) rfl).2 (by decide) (by decide)

/-- C9: with `timeout = 0` and a successful submit carrying a locator, the
deadline check at the top of the first loop iteration fires before any
`GET` — elapsed time is always `≥ 0` for a monotone clock — so the timeout
error is raised with zero poll `GET` requests issued. -/
theorem execute_zero_timeout_polls_none
    (m : ExecsManager) (env : ExecEnv) (l : String) (f : Nat)
    (hok : statusOk env.submit.status = true)
    (hloc : env.submit.location = some l)
    (hl : l.isEmpty = false)
    (hmono : env.times 0 ≤ env.times 1) :
    (executeSt m env (some 0) (f + 1)).1 = some (.error (.timedOut 0), 0) := by
  rw [executeSt_located m env (some 0) (f + 1) l hok hloc hl]
  have hd : deadlineHit env (some 0) 0 = true := by
    simp [deadlineHit, sub_nonneg]
    exact hmono
  exact pollLoop_timeout_at env 0 f 0 hd

theorem execute_zero_timeout_polls_none_witness :
    (executeSt sampleClient pendEnv (some 0) 3).1 =
      some (.error (.timedOut 0), 0) :=
  execute_zero_timeout_polls_none sampleClient pendEnv "/x" 2
    (by decide) rfl (by decide) (le_refl 0)

/-- C3: with `timeout = 0.2` and `poll_interval = 0.1` against a server that
never returns a terminal body, given a monotone clock in which each sleep
advances the clock by at least the poll interval, `execute` fails with the
timeout error carrying the configured duration `0.2` after at most 3 poll
`GET` requests: the deadline check at the top of each iteration fires as
soon as elapsed time reaches the timeout. -/
theorem execute_times_out_within_three_polls
    (m : ExecsManager) (env : ExecEnv) (l : String) (f : Nat)
    (hok : statusOk env.submit.status = true)
    (hloc : env.submit.location = some l)
    (hl : l.isEmpty = false)
    (hmono : ∀ i, env.times i ≤ env.times (i + 1))
    (hsleep : ∀ i, 1 ≤ i → env.times i + 1/10 ≤ env.times (i + 1))
    (hpend : ∀ i, ∃ b, env.polls i = .ok b ∧ b.status = none) :
    ∃ k, k ≤ 3 ∧ (executeSt m env (some (1/5)) (f + 3)).1 =
      some (.error (.timedOut (1/5)), k) := by
  rw [executeSt_located m env (some (1/5)) (f + 3) l hok hloc hl]
  cases hd0 : deadlineHit env (some (1/5)) 0 with
  | true => exact ⟨0, by norm_num, pollLoop_timeout_at env (1/5) (f + 2) 0 hd0⟩
  | false =>
    obtain ⟨b0, hp0, hs0⟩ := hpend 0
    have e0 := pollLoop_continue env (some (1/5)) (f + 2) 0 b0 hd0 hp0
      (by simp [hs0])
    cases hd1 : deadlineHit env (some (1/5)) 1 with
    | true =>
      exact ⟨1, by norm_num,
        e0.trans (pollLoop_timeout_at env (1/5) (f + 1) 1 hd1)⟩
    | false =>
      obtain ⟨b1, hp1, hs1⟩ := hpend 1
      have e1 := pollLoop_continue env (some (1/5)) (f + 1) 1 b1 hd1 hp1
        (by simp [hs1])
      have hd2 : deadlineHit env (some (1/5)) 2 = true := by
        have g1 := hmono 0
        have g2 := hsleep 1 (by norm_num)
        have g3 := hsleep 2 (by norm_num)
        simp only [deadlineHit, decide_eq_true_eq]
        linarith
      exact ⟨2, by norm_num,
        e0.trans (e1.trans (pollLoop_timeout_at env (1/5) f 2 hd2))⟩

theorem execute_times_out_within_three_polls_witness :
    ∃ k, k ≤ 3 ∧ (executeSt sampleClient neverDoneEnv (some (1/5)) 5).1 =
      some (.error (.timedOut (1/5)), k) :=
  execute_times_out_within_three_polls sampleClient neverDoneEnv "/x" 2
    (by decide) rfl (by decide)
    (fun i => by
      show ((i : ℚ)) ≤ ((i + 1 : Nat) : ℚ)
      push_cast
      linarith)
    (fun i _ => by
      show ((i : ℚ)) + 1/10 ≤ ((i + 1 : Nat) : ℚ)
      push_cast
      linarith)
    (fun i => ⟨interBody, rfl, rfl⟩)

lemma dropWhile_replicate_append (p : Char → Bool) (a : Char) (h : p a = true)
    (n : Nat) (l : List Char) :
    (List.replicate n a ++ l).dropWhile p = l.dropWhile p := by
  induction n with
  | zero => rfl
  | succ k ih => simp [List.replicate_succ, List.dropWhile_cons, h, ih]

lemma dropWhile_slash_eq_self (l : List Char) (h : l.head? ≠ some '/') :
    l.dropWhile (· = '/') = l := by
  cases l with
  | nil => rfl
  | cons a t =>
    have ha : ¬(a = '/') := fun e => h (by rw [e]; rfl)
    simp [List.dropWhile_cons, ha]

lemma dropTrailing_slashes (base : List Char) (n : Nat)
    (hb : base.getLast? ≠ some '/') :
    ((base ++ List.replicate n '/').reverse.dropWhile (· = '/')).reverse = base := by
  rw [List.reverse_append, List.reverse_replicate,
    dropWhile_replicate_append _ '/' (by decide) n,
    dropWhile_slash_eq_self _ (by rw [List.head?_reverse]; exact hb),
    List.reverse_reverse]

/-- C7: for every base endpoint with any number of trailing slashes and any
number of nested path segments, and every request path with or without
leading slashes, the composed URL is exactly the base prefix, a single
joining slash, and the path — witnessed in general and on the spec's
concrete examples. -/
theorem build_url_keeps_base_path
    (base path : String) (n m : Nat)
    (hb : base.toList.getLast? ≠ some '/')
    (hp : path.toList.head? ≠ some '/') :
    buildUrl (base ++ slashes n) (slashes m ++ path) = base ++ "/" ++ path ∧
    buildUrl "http://host:8890/tenant-x" "/api/contents/nb.ipynb" =
      "http://host:8890/tenant-x/api/contents/nb.ipynb" ∧
    buildUrl "http://host:8890/tenant-x/" "api/contents/nb.ipynb" =
      "http://host:8890/tenant-x/api/contents/nb.ipynb" ∧
    buildUrl "http://host:8890/tenant-x" "api/contents/nb.ipynb" =
      "http://host:8890/tenant-x/api/contents/nb.ipynb" ∧
    buildUrl "http://host:8890/tenant-x///" "/api/contents/nb.ipynb" =
      "http://host:8890/tenant-x/api/contents/nb.ipynb" := by
  refine ⟨?_, by decide, by decide, by decide, by decide⟩
  have hb2 : (base ++ slashes n).toList = base.toList ++ List.replicate n '/' := by
    show (base ++ slashes n).data = base.data ++ List.replicate n '/'
    rw [String.data_append]
    rfl
  have hp2 : (slashes m ++ path).toList = List.replicate m '/' ++ path.toList := by
    show (slashes m ++ path).data = List.replicate m '/' ++ path.data
    rw [String.data_append]
    rfl
  apply String.ext
  show buildUrlL (base ++ slashes n).toList (slashes m ++ path).toList =
    (base ++ "/" ++ path).data
  rw [hb2, hp2, String.data_append, String.data_append]
  unfold buildUrlL
  rw [dropTrailing_slashes base.toList n hb,
    dropWhile_replicate_append _ '/' (by decide) m,
    dropWhile_slash_eq_self _ hp]
  show base.data ++ '/' :: path.data = (base.data ++ ['/']) ++ path.data
  simp

theorem build_url_keeps_base_path_witness :
    buildUrl ("http://host:8890/tenant-x" ++ slashes 1)
        (slashes 1 ++ "api/contents/nb.ipynb") =
      "http://host:8890/tenant-x" ++ "/" ++ "api/contents/nb.ipynb" :=
  (build_url_keeps_base_path "http://host:8890/tenant-x"
    "api/contents/nb.ipynb" 1 1 (by decide) (by decide)).1

end JupyterExecs
